import Mathlib

/-!
Shallow embedding of `scripts/generate_data.py`, the synthetic e-commerce
data generator.  Python floats are modelled as exact rationals (`ℚ`),
Python `round(x, 2)` as rounding to the nearest multiple of `1/100`,
dates as day numbers and datetimes as second counts.

The Python `random` module's stream is modelled as a `Rng`: a supply of
integer entropy (used by `randint`/`choice`) and real entropy in `[0, 1]`
(used by `uniform`/`random`).  Every primitive is total and returns a
value in the documented range by construction, exactly as CPython's
primitives do.  `pandas.DataFrame.sample` draws from numpy's global
generator, a *separate* stream from the `random` module; it is modelled
as a second entropy supply `NpRng`.
-/

namespace EcomGen

/-- Python `round(x, 2)` on our rational model: round to the nearest
multiple of `1/100`. -/
def round2 (q : ℚ) : ℚ := ((round (q * 100) : ℤ) : ℚ) / 100

/-- Entropy stream backing the Python `random` module after `random.seed`:
`ints` feeds integer draws, `reals` feeds real draws. -/
structure Rng where
  ints : List Nat
  reals : List ℚ
deriving Repr, DecidableEq

/-- Draw one integer entropy value (0 when the supply is exhausted). -/
def Rng.natDraw (r : Rng) : Nat × Rng :=
  (r.ints.headD 0, { r with ints := r.ints.tail })

/-- Clamp a rational into `[0, 1]`. -/
def clamp01 (q : ℚ) : ℚ := max 0 (min 1 q)

/-- Draw one real entropy value, guaranteed to lie in `[0, 1]`. -/
def Rng.realDraw (r : Rng) : ℚ × Rng :=
  (clamp01 (r.reals.headD 0), { r with reals := r.reals.tail })

/-- `random.randint(a, b)`: an integer in `[a, b]` (inclusive), `a ≤ b`. -/
def randint (a b : Nat) (r : Rng) : Nat × Rng :=
  let d := r.natDraw
  (a + d.1 % (b + 1 - a), d.2)

/-- `random.uniform(a, b)`: a real in `[a, b]`. -/
def uniform (a b : ℚ) (r : Rng) : ℚ × Rng :=
  let d := r.realDraw
  (a + (b - a) * d.1, d.2)

/-- `random.random()`: a real in `[0, 1]`. -/
def pyRandom (r : Rng) : ℚ × Rng := r.realDraw

/-- `random.choice(l)`: an element of `l` (arbitrary default on the
empty list, where CPython would raise). -/
def choice {α : Type} [Inhabited α] (l : List α) (r : Rng) : α × Rng :=
  let d := r.natDraw
  (l.getD (d.1 % l.length) default, d.2)

/-- `random.choices(population, weights)[0]`: cumulative-weight selection
driven by a single `random.random()` draw. -/
def cumSelect {α : Type} [Inhabited α] : List (α × ℚ) → ℚ → α
  | [], _ => default
  | [(a, _)], _ => a
  | (a, w) :: rest, t => if t ≤ w then a else cumSelect rest (t - w)

def choicesWeighted {α : Type} [Inhabited α] (l : List α) (w : List ℚ) (r : Rng) : α × Rng :=
  let d := pyRandom r
  (cumSelect (l.zip w) (d.1 * w.sum), d.2)

/-- Entropy stream backing numpy's global generator (used by
`pandas.DataFrame.sample`).  Crucially it is NOT part of `Rng`:
`random.seed` does not seed it. -/
def NpRng : Type := List Nat

/-- One draw from the numpy stream. -/
def npDraw (np : NpRng) : Nat × NpRng := (List.headD np 0, List.tail np)

/-- `df.sample(1)`: one row of `l`. -/
def npChoose {α : Type} [Inhabited α] (l : List α) (np : NpRng) : α × NpRng :=
  let d := npDraw np
  (l.getD (d.1 % l.length) default, d.2)

/-- `df.sample(k, replace=True)`: `k` rows of `l`, drawn with replacement. -/
def npSample {α : Type} [Inhabited α] (l : List α) : Nat → NpRng → List α × NpRng
  | 0, np => ([], np)
  | k + 1, np =>
    let d := npChoose l np
    let rest := npSample l k d.2
    (d.1 :: rest.1, rest.2)

/-- `random_date(start, end)` (source lines 30–38): days are day numbers,
the result is a datetime as a second count
`(start + randint(0, end-start)) * 86400 + randint(0, 86399)`. -/
def random_date (start end_ : Nat) (r : Rng) : Nat × Rng :=
  let d := randint 0 (end_ - start) r
  let s := randint 0 86399 d.2
  ((start + d.1) * 86400 + s.1, s.2)

/-! ### Constants (source lines 22–27) -/

def RANDOM_SEED : Nat := 42
def NUM_PRODUCTS : Nat := 50
def NUM_CUSTOMERS : Nat := 100
def NUM_ORDERS : Nat := 500
def MAX_ITEMS_PER_ORDER : Nat := 5
def REVIEW_PROBABILITY : ℚ := 3 / 5

/-! ### Products (source lines 41–95) -/

def categories : List String :=
  ["Electronics", "Home", "Outdoors", "Sports", "Beauty",
   "Automotive", "Toys", "Fashion", "Books", "Grocery"]

def adjectives : List String :=
  ["Premium", "Compact", "Eco", "Smart", "Classic",
   "Deluxe", "Lightweight", "Portable", "Advanced", "Essential"]

def nouns : List String :=
  ["Speaker", "Backpack", "Bottle", "Lamp", "Watch",
   "Camera", "Shoes", "Notebook", "Headphones", "Mixer"]

structure Product where
  product_id : Nat
  name : String
  category : String
  price : ℚ
  cost : ℚ
  active : Bool
deriving Repr, DecidableEq, Inhabited

/-- One iteration of the `create_products` loop body (lines 80–94),
drawing in source order: category, adjective, noun, cost, markup, active. -/
def mkProduct (pid : Nat) (r : Rng) : Product × Rng :=
  let cat := choice categories r
  let adj := choice adjectives cat.2
  let noun := choice nouns adj.2
  let c := uniform 5 80 noun.2
  let cost := round2 c.1
  let m := uniform (12 / 10) (25 / 10) c.2
  let price := round2 (cost * m.1)
  let act := choice [true, true, true, false] m.2
  ({ product_id := pid, name := adj.1 ++ " " ++ noun.1, category := cat.1,
     price := price, cost := cost, active := act.1 }, act.2)

def create_products_aux : Nat → Nat → Rng → List Product × Rng
  | _, 0, r => ([], r)
  | pid, n + 1, r =>
    let p := mkProduct pid r
    let rest := create_products_aux (pid + 1) n p.2
    (p.1 :: rest.1, rest.2)

/-- `create_products()` (lines 41–95): product ids run 1..NUM_PRODUCTS. -/
def create_products (r : Rng) : List Product × Rng :=
  create_products_aux 1 NUM_PRODUCTS r

/-! ### Customers (source lines 98–122) -/

/-- The character for a decimal digit `d < 10`. -/
def digitChar10 (d : Nat) : Char := Char.ofNat (48 + d)

/-- Decimal digit string of a natural number, as Python `str(n)` writes it. -/
def toDecimal (n : Nat) : List Char :=
  if _h : n < 10 then [digitChar10 n]
  else toDecimal (n / 10) ++ [digitChar10 (n % 10)]
decreasing_by exact Nat.div_lt_self (by omega) (by omega)

def toDecimalStr (n : Nat) : String := ⟨toDecimal n⟩

/-- Left inverse of `toDecimal`, used to prove it injective. -/
def fromDecimal (l : List Char) : Nat :=
  l.foldl (fun a c => 10 * a + (c.toNat - 48)) 0

/-- Python `str.lower()` (ASCII case): lowercase every character. -/
def lowerStr (s : String) : String := ⟨s.data.map Char.toLower⟩

/-- The synthesized email of line 115:
`f"{first.lower()}.{last.lower()}{customer_id}@example.com"`. -/
def emailOf (first last : String) (cid : Nat) : String :=
  lowerStr first ++ "." ++ lowerStr last ++ toDecimalStr cid ++ "@example.com"

def first_names : List String :=
  ["Alex", "Jordan", "Taylor", "Casey", "Morgan",
   "Riley", "Harper", "Dakota", "Emerson", "Hayden"]

def last_names : List String :=
  ["Smith", "Lee", "Garcia", "Patel", "Brown",
   "Chen", "Davis", "Martinez", "Lopez", "Wilson"]

def cities : List String :=
  ["New York", "San Francisco", "Chicago", "Austin", "Seattle",
   "Boston", "Atlanta", "Denver", "Miami", "Phoenix"]

def states : List String :=
  ["NY", "CA", "IL", "TX", "WA", "MA", "GA", "CO", "FL", "AZ"]

def loyalty_tiers : List String := ["Bronze", "Silver", "Gold", "Platinum"]

/-- `signup_date` is stored as a day number: the source keeps only
`signup.date()`, discarding the random seconds. -/
structure Customer where
  customer_id : Nat
  first_name : String
  last_name : String
  email : String
  city : String
  state : String
  signup_date : Nat
  loyalty_tier : String
deriving Repr, DecidableEq, Inhabited

/-- One iteration of the `create_customers` loop body (lines 106–121),
drawing in source order: first, last, signup date, city, state, tier.
`today` is the ambient `date.today()` as a day number. -/
def mkCustomer (cid today : Nat) (r : Rng) : Customer × Rng :=
  let f := choice first_names r
  let l := choice last_names f.2
  let sd := random_date (today - 365) today l.2
  let ci := choice cities sd.2
  let st := choice states ci.2
  let lt := choice loyalty_tiers st.2
  ({ customer_id := cid, first_name := f.1, last_name := l.1,
     email := emailOf f.1 l.1 cid, city := ci.1, state := st.1,
     signup_date := sd.1 / 86400, loyalty_tier := lt.1 }, lt.2)

def create_customers_aux (today : Nat) : Nat → Nat → Rng → List Customer × Rng
  | _, 0, r => ([], r)
  | cid, n + 1, r =>
    let c := mkCustomer cid today r
    let rest := create_customers_aux today (cid + 1) n c.2
    (c.1 :: rest.1, rest.2)

/-- `create_customers()` (lines 98–122): customer ids run 1..NUM_CUSTOMERS. -/
def create_customers (today : Nat) (r : Rng) : List Customer × Rng :=
  create_customers_aux today 1 NUM_CUSTOMERS r

/-! ### Orders (source lines 125–143) -/

def statuses : List String :=
  ["pending", "processing", "completed", "shipped", "cancelled"]

def statusWeights : List ℚ := [5/100, 20/100, 40/100, 30/100, 5/100]

def shipping_methods : List String := ["ground", "express", "pickup"]

/-- `order_date` is a datetime second count. -/
structure Order where
  order_id : Nat
  customer_id : Nat
  order_date : Nat
  order_status : String
  shipping_method : String
  order_total : ℚ
deriving Repr, DecidableEq, Inhabited

/-- One iteration of the `create_orders` loop body (lines 129–142).
`customers.sample(1)` draws from the numpy stream, everything else from
the `random` module stream. -/
def mkOrder (oid : Nat) (customers : List Customer) (today : Nat)
    (r : Rng) (np : NpRng) : Order × Rng × NpRng :=
  let cu := npChoose customers np
  let dt := random_date (today - 180) today r
  let st := choicesWeighted statuses statusWeights dt.2
  let sh := choice shipping_methods st.2
  ({ order_id := oid, customer_id := cu.1.customer_id, order_date := dt.1,
     order_status := st.1, shipping_method := sh.1, order_total := 0 },
   sh.2, cu.2)

def create_orders_aux (customers : List Customer) (today : Nat) :
    Nat → Nat → Rng → NpRng → List Order × Rng × NpRng
  | _, 0, r, np => ([], r, np)
  | oid, n + 1, r, np =>
    let o := mkOrder oid customers today r np
    let rest := create_orders_aux customers today (oid + 1) n o.2.1 o.2.2
    (o.1 :: rest.1, rest.2)

/-- `create_orders(customers)` (lines 125–143): order ids run
1..NUM_ORDERS; `order_total` is the 0.0 placeholder. -/
def create_orders (customers : List Customer) (today : Nat) (r : Rng) (np : NpRng) :
    List Order × Rng × NpRng :=
  create_orders_aux customers today 1 NUM_ORDERS r np

/-! ### Order items (source lines 146–174) -/

structure OrderItem where
  order_item_id : Nat
  order_id : Nat
  product_id : Nat
  quantity : Nat
  unit_price : ℚ
  line_total : ℚ
deriving Repr, DecidableEq, Inhabited

/-- The inner loop of `create_order_items` (lines 155–170): one row per
chosen product; returns the rows, the running `order_total` (the plain sum
of the line totals, as the Python float accumulation computes), and the
next `item_id`. -/
def mkItems (oid : Nat) : List Product → Nat → Rng → List OrderItem × ℚ × Nat × Rng
  | [], itemId, r => ([], 0, itemId, r)
  | p :: rest, itemId, r =>
    let q := randint 1 4 r
    let line_total := round2 (p.price * (q.1 : ℚ))
    let next := mkItems oid rest (itemId + 1) q.2
    ({ order_item_id := itemId, order_id := oid, product_id := p.product_id,
       quantity := q.1, unit_price := p.price, line_total := line_total } :: next.1,
     line_total + next.2.1, next.2.2.1, next.2.2.2)

/-- The outer loop of `create_order_items` (lines 151–171): per order,
draw `randint(1, MAX_ITEMS_PER_ORDER)` and sample that many products with
replacement from the numpy stream; record `round(order_total, 2)` under
the order's id (the Python dict keyed by `order_id`). -/
def create_order_items_aux (products : List Product) :
    List Order → Nat → Rng → NpRng →
    List OrderItem × List (Nat × ℚ) × Nat × Rng × NpRng
  | [], itemId, r, np => ([], [], itemId, r, np)
  | o :: rest, itemId, r, np =>
    let n := randint 1 MAX_ITEMS_PER_ORDER r
    let chosen := npSample products n.1 np
    let chunk := mkItems o.order_id chosen.1 itemId n.2
    let next := create_order_items_aux products rest chunk.2.2.1 chunk.2.2.2 chosen.2
    (chunk.1 ++ next.1, (o.order_id, round2 chunk.2.1) :: next.2.1,
     next.2.2.1, next.2.2.2.1, next.2.2.2.2)

/-- `create_order_items(orders, products)` (lines 146–174): returns the
item rows and the orders table with `order_total` back-filled from the
per-order totals dict (`fillna(0.0)` ↦ `getD 0`; order ids are unique, so
first-match lookup agrees with the Python dict). -/
def create_order_items (orders : List Order) (products : List Product)
    (r : Rng) (np : NpRng) : List OrderItem × List Order × Rng × NpRng :=
  let g := create_order_items_aux products orders 1 r np
  (g.1,
   orders.map (fun o => { o with order_total := ((g.2.1.lookup o.order_id).getD 0) }),
   g.2.2.2.1, g.2.2.2.2)

/-! ### Reviews (source lines 177–212) -/

def review_texts : List String :=
  ["Great quality and fast shipping.",
   "Decent product for the price.",
   "Exceeded expectations!",
   "Not satisfied with the durability.",
   "Would definitely recommend to friends.",]

structure Review where
  review_id : Nat
  order_id : Nat
  product_id : Nat
  customer_id : Nat
  rating : Nat
  review_date : Nat
  review_text : String
deriving Repr, DecidableEq, Inhabited

/-- The `create_reviews` loop (lines 181–211).  Per order: one
`random.random()` draw decides whether to review; the order's items are
looked up by `order_id` and, when the lookup is empty, the order is
skipped by the guard of line 188; otherwise one item row is sampled from
the numpy stream and the review row is built. -/
def create_reviews_aux (order_items : List OrderItem) (today : Nat) :
    List Order → Nat → Rng → NpRng → List Review × Rng × NpRng
  | [], _, r, np => ([], r, np)
  | o :: rest, rid, r, np =>
    let pr := pyRandom r
    if REVIEW_PROBABILITY < pr.1 then
      create_reviews_aux order_items today rest rid pr.2 np
    else
      let items := order_items.filter (fun it => it.order_id == o.order_id)
      if items.isEmpty then
        create_reviews_aux order_items today rest rid pr.2 np
      else
        let it := npChoose items np
        let rd := random_date (today - 180) today pr.2
        let ra := randint 1 5 rd.2
        let tx := choice review_texts ra.2
        let next := create_reviews_aux order_items today rest (rid + 1) tx.2 it.2
        ({ review_id := rid, order_id := o.order_id, product_id := it.1.product_id,
           customer_id := o.customer_id, rating := ra.1, review_date := rd.1,
           review_text := tx.1 } :: next.1,
         next.2.1, next.2.2)

/-- `create_reviews(orders, order_items)` (lines 177–212). -/
def create_reviews (orders : List Order) (order_items : List OrderItem)
    (today : Nat) (r : Rng) (np : NpRng) : List Review × Rng × NpRng :=
  create_reviews_aux order_items today orders 1 r np

/-! ### The pipeline (source lines 215–230) -/

/-- The five tables `main` writes out. -/
structure Tables where
  products : List Product
  customers : List Customer
  orders : List Order
  order_items : List OrderItem
  reviews : List Review
deriving Repr, DecidableEq

/-- `main` (lines 215–230) minus the file I/O: run the five generation
stages in their fixed order.  `r` is the `random`-module stream as seeded
by `random.seed(RANDOM_SEED)` — a function of the seed alone.  `np` is
numpy's global stream, which `pandas.DataFrame.sample` consumes and which
`random.seed` does NOT seed; `today` is the ambient `date.today()`. -/
def mainTables (r : Rng) (np : NpRng) (today : Nat) : Tables :=
  let pr := create_products r
  let cu := create_customers today pr.2
  let od := create_orders cu.1 today cu.2 np
  let oi := create_order_items od.1 pr.1 od.2.1 od.2.2
  let rv := create_reviews oi.2.1 oi.1 today oi.2.2.1 oi.2.2.2
  { products := pr.1, customers := cu.1, orders := oi.2.1,
    order_items := oi.1, reviews := rv.1 }

/-- `∀ x ∈ l, p x` as a structurally recursive predicate, so that
statements about generated tables carry no propositional hypotheses. -/
def AllHold {α : Type} (p : α → Prop) : List α → Prop
  | [] => True
  | x :: xs => p x ∧ AllHold p xs

/-! ### Concrete fixtures used to instantiate hypothesis-bearing theorems -/

def sampleProduct : Product :=
  { product_id := 7, name := "Premium Speaker", category := "Electronics",
    price := 10, cost := 6, active := true }

def sampleOrder1 : Order :=
  { order_id := 1, customer_id := 3, order_date := 1728005,
    order_status := "completed", shipping_method := "ground", order_total := 0 }

def sampleOrder2 : Order :=
  { order_id := 2, customer_id := 4, order_date := 1728000,
    order_status := "shipped", shipping_method := "pickup", order_total := 0 }

def sampleItem : OrderItem :=
  { order_item_id := 1, order_id := 1, product_id := 7, quantity := 2,
    unit_price := 10, line_total := 20 }

def sampleRng : Rng := ⟨[0, 0, 0, 0, 0, 0, 0, 0], [0, 0, 0, 0]⟩

def sampleNp : NpRng := [0, 0, 0, 0, 0, 0]

/-! ## Helper lemmas -/

theorem allHold_iff {α : Type} (p : α → Prop) :
    ∀ l : List α, AllHold p l ↔ ∀ x ∈ l, p x
  | [] => by simp [AllHold]
  | x :: xs => by simp [AllHold, allHold_iff p xs]

theorem digitChar10_toNat {d : Nat} (h : d < 10) : (digitChar10 d).toNat = 48 + d := by
  interval_cases d <;> decide

theorem digitChar10_isDigit {d : Nat} (h : d < 10) : (digitChar10 d).isDigit = true := by
  interval_cases d <;> decide

theorem toDecimal_ne_nil (n : Nat) : toDecimal n ≠ [] := by
  rw [toDecimal]
  split <;> simp

theorem toDecimal_isDigit (n : Nat) : ∀ c ∈ toDecimal n, c.isDigit = true := by
  induction n using Nat.strong_induction_on with
  | _ n ih =>
    rw [toDecimal]
    split
    · next h => simpa using digitChar10_isDigit h
    · next h =>
      intro c hc
      rcases List.mem_append.1 hc with h1 | h1
      · exact ih (n / 10) (Nat.div_lt_self (by omega) (by omega)) c h1
      · rcases List.mem_singleton.1 h1 with rfl
        exact digitChar10_isDigit (Nat.mod_lt _ (by omega))

theorem toDecimal_foldl (n : Nat) :
    ∀ a : Nat, (toDecimal n).foldl (fun a c => 10 * a + (c.toNat - 48)) a =
      a * 10 ^ (toDecimal n).length + n := by
  induction n using Nat.strong_induction_on with
  | _ n ih =>
    intro a
    rw [toDecimal]
    split
    · next h =>
      simp [List.foldl, digitChar10_toNat h, pow_succ]
      omega
    · next h =>
      have hm : n % 10 < 10 := Nat.mod_lt _ (by omega)
      rw [List.foldl_append, ih (n / 10) (Nat.div_lt_self (by omega) (by omega)) a]
      simp only [List.foldl_cons, List.foldl_nil, List.length_append, List.length_cons,
        List.length_nil, digitChar10_toNat hm]
      have h2 : 48 + n % 10 - 48 = n % 10 := by omega
      have h3 : 10 * (n / 10) + n % 10 = n := by omega
      rw [h2]
      calc 10 * (a * 10 ^ (toDecimal (n / 10)).length + n / 10) + n % 10
          = a * 10 ^ ((toDecimal (n / 10)).length + (0 + 1)) + (10 * (n / 10) + n % 10) := by
            ring
        _ = _ := by rw [h3]

theorem fromDecimal_toDecimal (n : Nat) : fromDecimal (toDecimal n) = n := by
  rw [fromDecimal, toDecimal_foldl n 0]
  simp

theorem toDecimal_injective {m n : Nat} (h : toDecimal m = toDecimal n) : m = n := by
  have := congrArg fromDecimal h
  rwa [fromDecimal_toDecimal, fromDecimal_toDecimal] at this

/-- Splitting a list at the first character satisfying `P` is unique:
if two decompositions `xs ++ c :: t` agree, with `xs` free of `P` and `c`
satisfying it, their parts agree. -/
theorem append_split_unique {P : Char → Bool} :
    ∀ (xs1 xs2 : List Char) (c1 c2 : Char) (t1 t2 : List Char),
      (∀ c ∈ xs1, P c = false) → (∀ c ∈ xs2, P c = false) →
      P c1 = true → P c2 = true →
      xs1 ++ c1 :: t1 = xs2 ++ c2 :: t2 →
      xs1 = xs2 ∧ c1 = c2 ∧ t1 = t2
  | [], [], c1, c2, t1, t2, _, _, _, _, h => by
    simp only [List.nil_append, List.cons.injEq] at h
    exact ⟨rfl, h.1, h.2⟩
  | [], x :: xs, c1, c2, t1, t2, _, h2, hc1, _, h => by
    simp only [List.nil_append, List.cons_append, List.cons.injEq] at h
    have := h2 x (List.mem_cons_self x xs)
    rw [h.1] at hc1
    rw [hc1] at this
    exact absurd this (by simp)
  | x :: xs, [], c1, c2, t1, t2, h1, _, _, hc2, h => by
    simp only [List.nil_append, List.cons_append, List.cons.injEq] at h
    have := h1 x (List.mem_cons_self x xs)
    rw [← h.1] at hc2
    rw [hc2] at this
    exact absurd this (by simp)
  | x :: xs, y :: ys, c1, c2, t1, t2, h1, h2, hc1, hc2, h => by
    simp only [List.cons_append, List.cons.injEq] at h
    have rest := append_split_unique xs ys c1 c2 t1 t2
      (fun c hc => h1 c (List.mem_cons_of_mem _ hc))
      (fun c hc => h2 c (List.mem_cons_of_mem _ hc)) hc1 hc2 h.2
    exact ⟨by rw [h.1, rest.1], rest.2.1, rest.2.2⟩

theorem first_names_no_dot :
    ∀ f ∈ first_names, ∀ c ∈ (lowerStr f).data, (c == Char.ofNat 46) = false := by
  decide

theorem last_names_no_digit :
    ∀ l ∈ last_names, ∀ c ∈ (lowerStr l).data, c.isDigit = false := by
  decide

/-- Emails embed the decimal customer id between a digit-free lowercase
name prefix and a digit-free suffix, so distinct ids give distinct
emails, whatever names were drawn for the two customers. -/
theorem emailOf_inj {f1 l1 f2 l2 : String} {i j : Nat}
    (hf1 : f1 ∈ first_names) (hl1 : l1 ∈ last_names)
    (hf2 : f2 ∈ first_names) (hl2 : l2 ∈ last_names)
    (hij : i ≠ j) : emailOf f1 l1 i ≠ emailOf f2 l2 j := by
  intro h
  apply hij
  have hd := congrArg String.data h
  have hdot : (".").data = [Char.ofNat 46] := rfl
  simp only [emailOf, String.data_append, toDecimalStr, hdot, List.append_assoc,
    List.singleton_append] at hd
  obtain ⟨-, -, htail⟩ := append_split_unique _ _ _ _ _ _
    (first_names_no_dot f1 hf1) (first_names_no_dot f2 hf2)
    (by simp) (by simp) hd
  obtain ⟨d1, ds1, hd1⟩ := List.exists_cons_of_ne_nil (toDecimal_ne_nil i)
  obtain ⟨d2, ds2, hd2⟩ := List.exists_cons_of_ne_nil (toDecimal_ne_nil j)
  have hm1 : d1 ∈ toDecimal i := by rw [hd1]; exact List.mem_cons_self _ _
  have hm2 : d2 ∈ toDecimal j := by rw [hd2]; exact List.mem_cons_self _ _
  rw [hd1, hd2] at htail
  simp only [List.cons_append] at htail
  obtain ⟨-, hdd, hrest⟩ := append_split_unique _ _ _ _ _ _
    (last_names_no_digit l1 hl1) (last_names_no_digit l2 hl2)
    (toDecimal_isDigit i d1 hm1) (toDecimal_isDigit j d2 hm2) htail
  have hds : ds1 = ds2 := List.append_cancel_right hrest
  exact toDecimal_injective (by rw [hd1, hd2, hdd, hds])

theorem getD_mem_of_lt {α : Type} {l : List α} {n : Nat} (h : n < l.length) (d : α) :
    l.getD n d ∈ l := by
  rw [List.getD_eq_getElem?_getD, List.getElem?_eq_getElem h]
  exact List.getElem_mem h

theorem choice_mem {α : Type} [Inhabited α] {l : List α} (h : l ≠ []) (r : Rng) :
    (choice l r).1 ∈ l := by
  have hl : 0 < l.length := List.length_pos.2 h
  simp only [choice]
  exact getD_mem_of_lt (Nat.mod_lt _ hl) _

theorem npChoose_mem {α : Type} [Inhabited α] {l : List α} (h : l ≠ []) (np : NpRng) :
    (npChoose l np).1 ∈ l := by
  have hl : 0 < l.length := List.length_pos.2 h
  simp only [npChoose]
  exact getD_mem_of_lt (Nat.mod_lt _ hl) _

theorem npSample_mem {α : Type} [Inhabited α] {l : List α} (h : l ≠ []) :
    ∀ (k : Nat) (np : NpRng), ∀ x ∈ (npSample l k np).1, x ∈ l
  | 0, np => by simp [npSample]
  | k + 1, np => by
    intro x hx
    simp only [npSample, List.mem_cons] at hx
    rcases hx with rfl | hx
    · exact npChoose_mem h np
    · exact npSample_mem h k _ x hx

theorem npSample_length {α : Type} [Inhabited α] (l : List α) :
    ∀ (k : Nat) (np : NpRng), (npSample l k np).1.length = k
  | 0, _ => rfl
  | k + 1, np => by simp [npSample, npSample_length l k]

/-- Everything `create_customers_aux` produces: names from the pools, the
synthesized email, and a customer id at least the running counter. -/
theorem create_customers_aux_mem (today : Nat) :
    ∀ (n cid : Nat) (r : Rng), ∀ c ∈ (create_customers_aux today cid n r).1,
      c.first_name ∈ first_names ∧ c.last_name ∈ last_names ∧
      c.email = emailOf c.first_name c.last_name c.customer_id ∧
      cid ≤ c.customer_id
  | 0, cid, r => by simp [create_customers_aux]
  | n + 1, cid, r => by
    intro c hc
    simp only [create_customers_aux, List.mem_cons] at hc
    rcases hc with rfl | hc
    · refine ⟨choice_mem (by simp [first_names]) _, choice_mem (by simp [last_names]) _,
        rfl, le_refl _⟩
    · obtain ⟨h1, h2, h3, h4⟩ := create_customers_aux_mem today n (cid + 1) _ c hc
      exact ⟨h1, h2, h3, by omega⟩

theorem create_customers_aux_pairwise (today : Nat) :
    ∀ (n cid : Nat) (r : Rng),
      List.Pairwise (fun c1 c2 : Customer => c1.email ≠ c2.email)
        (create_customers_aux today cid n r).1
  | 0, cid, r => by simp [create_customers_aux]
  | n + 1, cid, r => by
    simp only [create_customers_aux]
    refine List.Pairwise.cons ?_ (create_customers_aux_pairwise today n (cid + 1) _)
    intro c hc
    obtain ⟨h1, h2, h3, h4⟩ := create_customers_aux_mem today n (cid + 1) _ c hc
    simp only [mkCustomer]
    rw [h3]
    exact emailOf_inj (choice_mem (by simp [first_names]) _)
      (choice_mem (by simp [last_names]) _) h1 h2 (by omega)

/-! ### Arithmetic facts about the rounding and draw primitives -/

theorem round2_sub_le (x : ℚ) : |round2 x - x| ≤ 1 / 200 := by
  have h := abs_sub_round (x * 100)
  rw [abs_sub_comm] at h
  rw [round2]
  have he : ((round (x * 100) : ℤ) : ℚ) / 100 - x = (((round (x * 100) : ℤ) : ℚ) - x * 100) / 100 := by ring
  rw [he, abs_div, abs_of_pos (show (0:ℚ) < 100 by norm_num)]
  linarith

theorem clamp01_nonneg (q : ℚ) : 0 ≤ clamp01 q := le_max_left _ _

theorem clamp01_le_one (q : ℚ) : clamp01 q ≤ 1 :=
  max_le (by norm_num) (min_le_left _ _)

theorem uniform_mem {a b : ℚ} (hab : a ≤ b) (r : Rng) :
    a ≤ (uniform a b r).1 ∧ (uniform a b r).1 ≤ b := by
  simp only [uniform, Rng.realDraw]
  constructor
  · nlinarith [clamp01_nonneg (r.reals.headD 0)]
  · nlinarith [clamp01_le_one (r.reals.headD 0), clamp01_nonneg (r.reals.headD 0)]

theorem randint_mem (a b : Nat) (r : Rng) (hab : a ≤ b) :
    a ≤ (randint a b r).1 ∧ (randint a b r).1 ≤ b := by
  simp only [randint, Rng.natDraw]
  have := Nat.mod_lt (r.ints.headD 0) (y := b + 1 - a) (by omega)
  omega

/-- The heart of C5: a 2dp-rounded cost in `[5, 80]` times a markup in
`[1.2, 2.5]`, rounded to 2dp, strictly exceeds the cost. -/
theorem cost_lt_price_arith {u m : ℚ} (hu1 : 5 ≤ u)
    (hm1 : 12 / 10 ≤ m) : round2 u < round2 (round2 u * m) := by
  have h1 := round2_sub_le u
  have h2 := round2_sub_le (round2 u * m)
  rw [abs_le] at h1 h2
  have hc1 : (5 : ℚ) - 1 / 200 ≤ round2 u := by linarith [h1.1, h1.2]
  have hmul : round2 u * (12 / 10) ≤ round2 u * m :=
    mul_le_mul_of_nonneg_left hm1 (by linarith)
  linarith [h2.1, h2.2]

theorem mkProduct_cost_lt_price (pid : Nat) (r : Rng) :
    (mkProduct pid r).1.cost < (mkProduct pid r).1.price := by
  simp only [mkProduct]
  exact cost_lt_price_arith
    (uniform_mem (by norm_num) _).1
    (uniform_mem (by norm_num) _).1

theorem create_products_aux_cost_lt_price :
    ∀ (n pid : Nat) (r : Rng),
      AllHold (fun p : Product => p.cost < p.price) (create_products_aux pid n r).1
  | 0, _, _ => trivial
  | n + 1, pid, r =>
    ⟨mkProduct_cost_lt_price pid r,
     create_products_aux_cost_lt_price n (pid + 1) (mkProduct pid r).2⟩

theorem allHold_imp {α : Type} {p q : α → Prop} (h : ∀ x, p x → q x) :
    ∀ {l : List α}, AllHold p l → AllHold q l
  | [], _ => trivial
  | _ :: _, hl => ⟨h _ hl.1, allHold_imp h hl.2⟩

theorem allHold_append {α : Type} {p : α → Prop} :
    ∀ {l1 l2 : List α}, AllHold p l1 → AllHold p l2 → AllHold p (l1 ++ l2)
  | [], _, _, h2 => h2
  | _ :: _, _, h1, h2 => ⟨h1.1, allHold_append h1.2 h2⟩

/-! ### Facts about the order-items stage -/

theorem mkItems_spec (oid : Nat) :
    ∀ (chosen : List Product) (itemId : Nat) (r : Rng),
      AllHold (fun it : OrderItem =>
          it.order_id = oid ∧ 1 ≤ it.quantity ∧ it.quantity ≤ 4 ∧
          it.line_total = round2 (it.unit_price * (it.quantity : ℚ)) ∧
          ∃ p ∈ chosen, it.product_id = p.product_id ∧ it.unit_price = p.price)
        (mkItems oid chosen itemId r).1
  | [], _, _ => trivial
  | p :: rest, itemId, r => by
    refine ⟨⟨rfl, (randint_mem 1 4 r (by omega)).1, (randint_mem 1 4 r (by omega)).2,
      rfl, ⟨p, List.mem_cons_self _ _, rfl, rfl⟩⟩, ?_⟩
    exact allHold_imp
      (fun it ⟨h1, h2, h3, h4, q, hq, h5⟩ => ⟨h1, h2, h3, h4, q, List.mem_cons_of_mem _ hq, h5⟩)
      (mkItems_spec oid rest (itemId + 1) (randint 1 4 r).2)

theorem mkItems_total (oid : Nat) :
    ∀ (chosen : List Product) (itemId : Nat) (r : Rng),
      (mkItems oid chosen itemId r).2.1 =
        ((mkItems oid chosen itemId r).1.map (fun it => it.line_total)).sum
  | [], _, _ => by simp [mkItems]
  | p :: rest, itemId, r => by
    simp only [mkItems, List.map_cons, List.sum_cons]
    rw [mkItems_total oid rest (itemId + 1) (randint 1 4 r).2]

theorem mkItems_length (oid : Nat) :
    ∀ (chosen : List Product) (itemId : Nat) (r : Rng),
      (mkItems oid chosen itemId r).1.length = chosen.length
  | [], _, _ => rfl
  | p :: rest, itemId, r => by
    simp only [mkItems, List.length_cons]
    rw [mkItems_length oid rest (itemId + 1) (randint 1 4 r).2]

theorem filter_of_allhold_eq {oid : Nat} {l : List OrderItem}
    (h : AllHold (fun it => it.order_id = oid) l) :
    l.filter (fun it => it.order_id == oid) = l := by
  rw [List.filter_eq_self]
  intro it hit
  have := (allHold_iff _ _).1 h it hit
  simp [this]

theorem filter_of_allhold_ne {oid : Nat} {l : List OrderItem}
    (h : AllHold (fun it => it.order_id ≠ oid) l) :
    l.filter (fun it => it.order_id == oid) = [] := by
  rw [List.filter_eq_nil_iff]
  intro it hit
  have := (allHold_iff _ _).1 h it hit
  simp [this]

/-- Every item generated by the outer loop carries the id of one of the
orders it walked over. -/
theorem create_order_items_aux_oids (products : List Product) :
    ∀ (orders : List Order) (itemId : Nat) (r : Rng) (np : NpRng),
      AllHold (fun it : OrderItem => ∃ o ∈ orders, it.order_id = o.order_id)
        (create_order_items_aux products orders itemId r np).1
  | [], _, _, _ => trivial
  | o :: rest, itemId, r, np => by
    simp only [create_order_items_aux]
    refine allHold_append ?_ ?_
    · exact allHold_imp (fun it h => ⟨o, List.mem_cons_self _ _, h.1⟩)
        (mkItems_spec o.order_id _ _ _)
    · exact allHold_imp (fun it h => by
          obtain ⟨o2, ho2, he⟩ := h
          exact ⟨o2, List.mem_cons_of_mem _ ho2, he⟩)
        (create_order_items_aux_oids products rest _ _ _)

/-- The central invariant of `create_order_items` (C1 and C7): under
distinct order ids, the totals dict entry of each order is the 2dp
rounding of the sum of exactly its own items' line totals, and each order
got between 1 and `MAX_ITEMS_PER_ORDER` items. -/
theorem create_order_items_aux_spec (products : List Product) (orders : List Order) :
    ∀ (itemId : Nat) (r : Rng) (np : NpRng),
      List.Pairwise (fun o1 o2 : Order => o1.order_id ≠ o2.order_id) orders →
      ∀ o ∈ orders,
        (create_order_items_aux products orders itemId r np).2.1.lookup o.order_id =
          some (round2 ((((create_order_items_aux products orders itemId r np).1.filter
            (fun it => it.order_id == o.order_id)).map (fun it => it.line_total)).sum)) ∧
        1 ≤ ((create_order_items_aux products orders itemId r np).1.filter
            (fun it => it.order_id == o.order_id)).length ∧
        ((create_order_items_aux products orders itemId r np).1.filter
            (fun it => it.order_id == o.order_id)).length ≤ MAX_ITEMS_PER_ORDER := by
  induction orders with
  | nil =>
    intro _ _ _ _ o ho
    cases ho
  | cons o1 rest ih =>
    intro itemId r np hp x hx
    obtain ⟨hhead, htail⟩ := List.pairwise_cons.1 hp
    simp only [create_order_items_aux]
    set nI := randint 1 MAX_ITEMS_PER_ORDER r with hnI
    set chosen := npSample products nI.1 np with hchosen
    set chunk := mkItems o1.order_id chosen.1 itemId nI.2 with hchunk
    set restg := create_order_items_aux products rest chunk.2.2.1 chunk.2.2.2 chosen.2
      with hrestg
    rcases List.mem_cons.1 hx with rfl | hx
    · have hca : AllHold (fun it : OrderItem => it.order_id = x.order_id) chunk.1 := by
        rw [hchunk]
        exact allHold_imp (fun it h => h.1) (mkItems_spec _ _ _ _)
      have hra : AllHold (fun it : OrderItem => it.order_id ≠ x.order_id) restg.1 := by
        rw [hrestg]
        refine allHold_imp ?_ (create_order_items_aux_oids products rest _ _ _)
        intro it h
        obtain ⟨o2, ho2, he⟩ := h
        rw [he]
        exact fun hcon => hhead o2 ho2 hcon.symm
      rw [List.filter_append, filter_of_allhold_eq hca, filter_of_allhold_ne hra,
        List.append_nil]
      refine ⟨?_, ?_, ?_⟩
      · simp only [List.lookup, beq_self_eq_true]
        rw [hchunk, mkItems_total]
      · rw [hchunk, mkItems_length, hchosen, npSample_length]
        exact (randint_mem 1 MAX_ITEMS_PER_ORDER r (by norm_num [MAX_ITEMS_PER_ORDER])).1
      · rw [hchunk, mkItems_length, hchosen, npSample_length]
        exact (randint_mem 1 MAX_ITEMS_PER_ORDER r (by norm_num [MAX_ITEMS_PER_ORDER])).2
    · have hxo : x.order_id ≠ o1.order_id := fun hcon => hhead x hx hcon.symm
      have hca : AllHold (fun it : OrderItem => it.order_id ≠ x.order_id) chunk.1 := by
        rw [hchunk]
        exact allHold_imp (fun it h => by rw [h.1]; exact fun hc => hxo hc.symm)
          (mkItems_spec _ _ _ _)
      rw [List.filter_append, filter_of_allhold_ne hca, List.nil_append]
      have hlk : (x.order_id == o1.order_id) = false := by
        simp [hxo]
      simp only [List.lookup, hlk]
      exact ih _ _ _ htail x hx

theorem allHold_map {α β : Type} {p : β → Prop} {f : α → β} :
    ∀ {l : List α}, AllHold (fun x => p (f x)) l → AllHold p (l.map f)
  | [], _ => trivial
  | _ :: _, h => ⟨h.1, allHold_map h.2⟩

theorem create_products_aux_length :
    ∀ (n pid : Nat) (r : Rng), (create_products_aux pid n r).1.length = n
  | 0, _, _ => rfl
  | n + 1, pid, r => by
    simp only [create_products_aux, List.length_cons]
    rw [create_products_aux_length n (pid + 1) (mkProduct pid r).2]

theorem create_customers_aux_length (today : Nat) :
    ∀ (n cid : Nat) (r : Rng), (create_customers_aux today cid n r).1.length = n
  | 0, _, _ => rfl
  | n + 1, cid, r => by
    simp only [create_customers_aux, List.length_cons]
    rw [create_customers_aux_length today n (cid + 1) (mkCustomer cid today r).2]

/-- Every order drawn by `create_orders_aux` takes its `customer_id` from
a sampled row of the customers table. -/
theorem create_orders_aux_customers {customers : List Customer} (hc : customers ≠ [])
    (today : Nat) :
    ∀ (n oid : Nat) (r : Rng) (np : NpRng),
      AllHold (fun o : Order => o.customer_id ∈ customers.map (fun c => c.customer_id))
        (create_orders_aux customers today oid n r np).1
  | 0, _, _, _ => trivial
  | n + 1, oid, r, np =>
    ⟨List.mem_map_of_mem _ (npChoose_mem hc np),
     create_orders_aux_customers hc today n (oid + 1) (mkOrder oid customers today r np).2.1
       (mkOrder oid customers today r np).2.2⟩

/-- Items carry quantity in `[1, 4]`, the rounded line total, and a price
snapshot of a product of the catalogue. -/
theorem create_order_items_aux_items {products : List Product} (hprod : products ≠ []) :
    ∀ (orders : List Order) (itemId : Nat) (r : Rng) (np : NpRng),
      AllHold (fun it : OrderItem =>
          1 ≤ it.quantity ∧ it.quantity ≤ 4 ∧
          it.line_total = round2 (it.unit_price * (it.quantity : ℚ)) ∧
          ∃ p ∈ products, it.product_id = p.product_id ∧ it.unit_price = p.price)
        (create_order_items_aux products orders itemId r np).1
  | [], _, _, _ => trivial
  | o :: rest, itemId, r, np => by
    simp only [create_order_items_aux]
    refine allHold_append ?_ (create_order_items_aux_items hprod rest _ _ _)
    refine allHold_imp ?_ (mkItems_spec o.order_id _ _ _)
    intro it h
    obtain ⟨-, h2, h3, h4, p, hp, h5⟩ := h
    exact ⟨h2, h3, h4, p, npSample_mem hprod _ _ p hp, h5⟩

/-- What `create_reviews_aux` guarantees about every emitted review: it
belongs to one of the walked orders, copies that order's `customer_id`,
and its `product_id` is drawn from that order's (nonempty) item rows. -/
theorem create_reviews_aux_spec (items : List OrderItem) (today : Nat) :
    ∀ (orders : List Order) (rid : Nat) (r : Rng) (np : NpRng),
      AllHold (fun rv : Review =>
          (∃ o ∈ orders, rv.order_id = o.order_id ∧ rv.customer_id = o.customer_id) ∧
          items.filter (fun it => it.order_id == rv.order_id) ≠ [] ∧
          rv.product_id ∈ (items.filter (fun it => it.order_id == rv.order_id)).map
            (fun it => it.product_id))
        (create_reviews_aux items today orders rid r np).1
  | [], _, _, _ => trivial
  | o :: rest, rid, r, np => by
    have weaken : ∀ (rid2 : Nat) (r2 : Rng) (np2 : NpRng),
        AllHold (fun rv : Review =>
            (∃ o2 ∈ o :: rest, rv.order_id = o2.order_id ∧ rv.customer_id = o2.customer_id) ∧
            items.filter (fun it => it.order_id == rv.order_id) ≠ [] ∧
            rv.product_id ∈ (items.filter (fun it => it.order_id == rv.order_id)).map
              (fun it => it.product_id))
          (create_reviews_aux items today rest rid2 r2 np2).1 := by
      intro rid2 r2 np2
      refine allHold_imp ?_ (create_reviews_aux_spec items today rest rid2 r2 np2)
      intro rv h
      obtain ⟨⟨o2, ho2, he⟩, h2, h3⟩ := h
      exact ⟨⟨o2, List.mem_cons_of_mem _ ho2, he⟩, h2, h3⟩
    simp only [create_reviews_aux]
    split
    · exact weaken _ _ _
    · split
      · exact weaken _ _ _
      · next hne =>
        have hne2 : items.filter (fun it => it.order_id == o.order_id) ≠ [] := by
          simpa [List.isEmpty_iff] using hne
        exact ⟨⟨⟨o, List.mem_cons_self _ _, rfl, rfl⟩, hne2,
            List.mem_map_of_mem _ (npChoose_mem hne2 np)⟩, weaken _ _ _⟩

/-! ## The claims -/

/-- C1: after `create_order_items` completes, every order in the returned
orders table has `order_total` equal to `round(sum of line_total, 2)` over
that order's item rows, each `line_total` itself already rounded to 2dp
before summation.  Order ids are assumed pairwise distinct, as
`create_orders` generates them. -/
theorem C1_order_total_is_rounded_sum (orders : List Order) (products : List Product)
    (r : Rng) (np : NpRng)
    (hids : List.Pairwise (fun o1 o2 : Order => o1.order_id ≠ o2.order_id) orders) :
    AllHold (fun o : Order =>
        o.order_total = round2 ((((create_order_items orders products r np).1.filter
          (fun it => it.order_id == o.order_id)).map (fun it => it.line_total)).sum))
      (create_order_items orders products r np).2.1 := by
  simp only [create_order_items]
  refine allHold_map ?_
  rw [allHold_iff]
  intro o ho
  obtain ⟨hl, -, -⟩ := create_order_items_aux_spec products orders 1 r np hids o ho
  dsimp only
  rw [hl]
  simp

/-- C7: for every order, the number of item rows generated for it lies
between 1 and `MAX_ITEMS_PER_ORDER = 5`.  Order ids are assumed pairwise
distinct, as `create_orders` generates them. -/
theorem C7_items_per_order_in_one_to_five (orders : List Order) (products : List Product)
    (r : Rng) (np : NpRng)
    (hids : List.Pairwise (fun o1 o2 : Order => o1.order_id ≠ o2.order_id) orders) :
    AllHold (fun o : Order =>
        1 ≤ ((create_order_items orders products r np).1.filter
              (fun it => it.order_id == o.order_id)).length ∧
        ((create_order_items orders products r np).1.filter
              (fun it => it.order_id == o.order_id)).length ≤ MAX_ITEMS_PER_ORDER)
      (create_order_items orders products r np).2.1 := by
  simp only [create_order_items]
  refine allHold_map ?_
  rw [allHold_iff]
  intro o ho
  obtain ⟨-, h1, h2⟩ := create_order_items_aux_spec products orders 1 r np hids o ho
  exact ⟨h1, h2⟩

/-- C6: every generated order item has an integer quantity in `[1, 4]`,
`line_total = round(unit_price * quantity, 2)`, and `unit_price` is the
price snapshot of the referenced catalogue product. -/
theorem C6_item_quantity_and_line_total (orders : List Order) (products : List Product)
    (r : Rng) (np : NpRng) (hprod : products ≠ []) :
    AllHold (fun it : OrderItem =>
        1 ≤ it.quantity ∧ it.quantity ≤ 4 ∧
        it.line_total = round2 (it.unit_price * (it.quantity : ℚ)) ∧
        ∃ p ∈ products, it.product_id = p.product_id ∧ it.unit_price = p.price)
      (create_order_items orders products r np).1 := by
  simp only [create_order_items]
  exact create_order_items_aux_items hprod orders 1 r np

/-- C2: every review emitted by `create_reviews` references one of the
walked orders, copies that order's `customer_id`, and its `product_id`
appears among the `product_id`s of the item rows filed under the review's
`order_id`. -/
theorem C2_reviews_reference_purchased_products (orders : List Order)
    (items : List OrderItem) (today : Nat) (r : Rng) (np : NpRng) :
    AllHold (fun rv : Review =>
        (∃ o ∈ orders, rv.order_id = o.order_id ∧ rv.customer_id = o.customer_id) ∧
        rv.product_id ∈ (items.filter (fun it => it.order_id == rv.order_id)).map
          (fun it => it.product_id))
      (create_reviews orders items today r np).1 :=
  allHold_imp (fun _ h => ⟨h.1, h.2.2⟩)
    (create_reviews_aux_spec items today orders 1 r np)

/-- C9: an order whose item lookup comes back empty never yields a review
row — the `items.empty` guard skips it (and, the model being total, no
error is raised): every emitted review's `order_id` has a nonempty item
filter. -/
theorem C9_zero_item_orders_never_reviewed (orders : List Order)
    (items : List OrderItem) (today : Nat) (r : Rng) (np : NpRng) :
    AllHold (fun rv : Review =>
        items.filter (fun it => it.order_id == rv.order_id) ≠ [])
      (create_reviews orders items today r np).1 :=
  allHold_imp (fun _ h => h.2.1)
    (create_reviews_aux_spec items today orders 1 r np)

/-- C5: every product generated by `create_products` has
`price = round(cost * markup, 2) > cost` with the markup drawn from
`[1.2, 2.5]` and `cost = round(uniform(5, 80), 2)`. -/
theorem C5_price_strictly_exceeds_cost (r : Rng) :
    AllHold (fun p : Product => p.cost < p.price) (create_products r).1 :=
  create_products_aux_cost_lt_price NUM_PRODUCTS 1 r

/-- C8: the emails of the customers generated by `create_customers` are
pairwise distinct, because each embeds its customer's unique decimal id
between digit-free name parts and a digit-free domain. -/
theorem C8_customer_emails_pairwise_distinct (today : Nat) (r : Rng) :
    List.Pairwise (fun c1 c2 : Customer => c1.email ≠ c2.email)
      (create_customers today r).1 :=
  create_customers_aux_pairwise today NUM_CUSTOMERS 1 r

/-- C3: referential integrity of the full pipeline output — every item
row's `order_id` is an order of the orders table and its `product_id` a
product of the products table, and every order's `customer_id` is a
customer of the customers table. -/
theorem C3_referential_integrity (r : Rng) (np : NpRng) (today : Nat) :
    (AllHold (fun it : OrderItem =>
        it.order_id ∈ (mainTables r np today).orders.map (fun o => o.order_id) ∧
        it.product_id ∈ (mainTables r np today).products.map (fun p => p.product_id))
      (mainTables r np today).order_items) ∧
    (AllHold (fun o : Order =>
        o.customer_id ∈ (mainTables r np today).customers.map (fun c => c.customer_id))
      (mainTables r np today).orders) := by
  have hprod_ne : (create_products r).1 ≠ [] := by
    intro hcon
    have hlen := create_products_aux_length NUM_PRODUCTS 1 r
    rw [create_products] at hcon
    rw [hcon] at hlen
    simp [NUM_PRODUCTS] at hlen
  have hcust_ne : (create_customers today (create_products r).2).1 ≠ [] := by
    intro hcon
    have hlen := create_customers_aux_length today NUM_CUSTOMERS 1 (create_products r).2
    rw [create_customers] at hcon
    rw [hcon] at hlen
    simp [NUM_CUSTOMERS] at hlen
  constructor
  · simp only [mainTables, create_order_items]
    rw [allHold_iff]
    intro it hit
    constructor
    · obtain ⟨o, ho, he⟩ := (allHold_iff _ _).1
        (create_order_items_aux_oids _ _ _ _ _) it hit
      rw [he, List.map_map]
      exact List.mem_map_of_mem _ ho
    · obtain ⟨-, -, -, p, hp, hpe, -⟩ := (allHold_iff _ _).1
        (create_order_items_aux_items hprod_ne _ _ _ _) it hit
      rw [hpe]
      exact List.mem_map_of_mem _ hp
  · simp only [mainTables]
    refine allHold_map ?_
    refine allHold_imp ?_
      (create_orders_aux_customers hcust_ne today NUM_ORDERS 1 _ _)
    intro o h
    exact h

/-- C4: the code is NOT deterministic in the seed alone.  `random.seed`
fixes the `random`-module stream (first argument), but
`pandas.DataFrame.sample` draws from numpy's global generator, which the
seed call never touches: two runs with the identical seeded stream and
identical `date.today()` but different numpy states produce different
orders tables (here: the first order's `customer_id` differs). -/
theorem C4_seed_does_not_determine_output :
    mainTables ⟨[], []⟩ [0] 365 ≠ mainTables ⟨[], []⟩ [1] 365 := by
  intro h
  have h2 := congrArg (fun t : Tables => t.orders.head?.map (fun o => o.customer_id)) h
  exact absurd h2 (by with_unfolding_all decide)

/-- C10: `review_date` is drawn by `random_date` over the same trailing
180-day window as order dates but independently of the order's own
`order_date`; hence for any order dated strictly after the window start
(and having item rows) some draws give its review an earlier date. -/
theorem C10_review_date_can_precede_order_date (today : Nat) (o : Order)
    (items : List OrderItem) (h180 : 180 ≤ today)
    (hlate : (today - 180) * 86400 < o.order_date)
    (hitems : items.filter (fun it => it.order_id == o.order_id) ≠ []) :
    ∃ (r : Rng) (np : NpRng), ∃ rv ∈ (create_reviews [o] items today r np).1,
      (today - 180) * 86400 ≤ rv.review_date ∧
      rv.review_date ≤ today * 86400 + 86399 ∧
      rv.review_date < o.order_date := by
  refine ⟨⟨[0, 0, 0, 0], [0]⟩, [0], ?_⟩
  simp only [create_reviews, create_reviews_aux, pyRandom, Rng.realDraw, clamp01,
    REVIEW_PROBABILITY, List.headD, List.tail]
  rw [if_neg (by norm_num)]
  rw [if_neg (by simpa [List.isEmpty_iff] using hitems)]
  refine ⟨_, List.mem_cons_self _ _, ?_, ?_, ?_⟩
  · simp [random_date, randint, Rng.natDraw]
  · simp [random_date, randint, Rng.natDraw]
    omega
  · simp [random_date, randint, Rng.natDraw]
    omega

/-! ## Witnesses for the hypothesis-bearing claim theorems -/

theorem C1_order_total_is_rounded_sum_witness :
    List.Pairwise (fun o1 o2 : Order => o1.order_id ≠ o2.order_id)
      [sampleOrder1, sampleOrder2] ∧
    AllHold (fun o : Order =>
        o.order_total = round2 ((((create_order_items [sampleOrder1, sampleOrder2]
          [sampleProduct] sampleRng sampleNp).1.filter
          (fun it => it.order_id == o.order_id)).map (fun it => it.line_total)).sum))
      (create_order_items [sampleOrder1, sampleOrder2] [sampleProduct]
        sampleRng sampleNp).2.1 :=
  ⟨by decide, C1_order_total_is_rounded_sum [sampleOrder1, sampleOrder2]
    [sampleProduct] sampleRng sampleNp (by decide)⟩

theorem C7_items_per_order_in_one_to_five_witness :
    List.Pairwise (fun o1 o2 : Order => o1.order_id ≠ o2.order_id)
      [sampleOrder1, sampleOrder2] ∧
    AllHold (fun o : Order =>
        1 ≤ ((create_order_items [sampleOrder1, sampleOrder2] [sampleProduct]
              sampleRng sampleNp).1.filter
              (fun it => it.order_id == o.order_id)).length ∧
        ((create_order_items [sampleOrder1, sampleOrder2] [sampleProduct]
              sampleRng sampleNp).1.filter
              (fun it => it.order_id == o.order_id)).length ≤ MAX_ITEMS_PER_ORDER)
      (create_order_items [sampleOrder1, sampleOrder2] [sampleProduct]
        sampleRng sampleNp).2.1 :=
  ⟨by decide, C7_items_per_order_in_one_to_five [sampleOrder1, sampleOrder2]
    [sampleProduct] sampleRng sampleNp (by decide)⟩

theorem C6_item_quantity_and_line_total_witness :
    [sampleProduct] ≠ [] ∧
    AllHold (fun it : OrderItem =>
        1 ≤ it.quantity ∧ it.quantity ≤ 4 ∧
        it.line_total = round2 (it.unit_price * (it.quantity : ℚ)) ∧
        ∃ p ∈ [sampleProduct], it.product_id = p.product_id ∧ it.unit_price = p.price)
      (create_order_items [sampleOrder1] [sampleProduct] sampleRng sampleNp).1 :=
  ⟨by decide, C6_item_quantity_and_line_total [sampleOrder1] [sampleProduct]
    sampleRng sampleNp (by decide)⟩

theorem C10_review_date_can_precede_order_date_witness :
    (180 ≤ 200 ∧ (200 - 180) * 86400 < sampleOrder1.order_date ∧
      [sampleItem].filter (fun it => it.order_id == sampleOrder1.order_id) ≠ []) ∧
    ∃ (r : Rng) (np : NpRng),
      ∃ rv ∈ (create_reviews [sampleOrder1] [sampleItem] 200 r np).1,
        (200 - 180) * 86400 ≤ rv.review_date ∧
        rv.review_date ≤ 200 * 86400 + 86399 ∧
        rv.review_date < sampleOrder1.order_date :=
  ⟨⟨by decide, by decide, by decide⟩,
   C10_review_date_can_precede_order_date 200 sampleOrder1 [sampleItem]
     (by decide) (by decide) (by decide)⟩

end EcomGen
